import Mathlib

/-!
Verification development for the webwhats message pipeline.

The definitions below are a shallow embedding of the JavaScript source:

* `src/src/services/knowledgeSearchService.js` — per-category vector store
  with lazy loading, cosine similarity and top-K ranking;
* `src/src/services/messageService.js` — ingestion/dedup gate, the
  per-conversation router and command handlers, group summaries;
* `src/src/services/summaryService.js` — on-demand summary requests;
* the queue service (`retryOperation`, backoff configuration).

External collaborators (database, redis, AI providers, the messaging
gateway, the file system) are modelled as oracles in an `Env` record;
stateful JavaScript objects become explicit state records, and thrown
exceptions become `Except` values.  Numbers that the source computes with
IEEE floats are idealised as elements of a linear ordered field (the
theorems instantiate them at `ℚ` or `ℝ`).
-/

namespace WebWhats

/-- Substring test on lists of characters: JavaScript `String.includes`. -/
def containsAux (pat : List Char) : List Char → Bool
  | [] => pat.isPrefixOf ([] : List Char)
  | c :: cs => pat.isPrefixOf (c :: cs) || containsAux pat cs

/-- JavaScript `s.includes(pat)`. -/
def strContains (s pat : String) : Bool :=
  containsAux pat.toList s.toList

/-- JavaScript `s.replace(/\s+/g, '')`: drop every whitespace character. -/
def stripWhitespace (s : String) : String :=
  String.mk (s.toList.filter (fun c => !c.isWhitespace))

/-- JavaScript `s.trim()`. -/
def strTrim (s : String) : String :=
  String.mk (((s.data.dropWhile Char.isWhitespace).reverse.dropWhile
    Char.isWhitespace).reverse)

/-- JavaScript `s.toLowerCase()`. -/
def strToLower (s : String) : String :=
  String.mk (s.data.map Char.toLower)

/-- JavaScript `s.startsWith(pat)`. -/
def strStartsWith (s pat : String) : Bool :=
  pat.data.isPrefixOf s.data

/-- JavaScript `s.substring(n)` for ASCII prefixes. -/
def strDrop (s : String) (n : Nat) : String :=
  String.mk (s.data.drop n)

/-- JavaScript `s.split(' ')` on character lists. -/
def splitSpaceChars : List Char → List (List Char)
  | [] => [[]]
  | c :: cs =>
    let r := splitSpaceChars cs
    if c = ' ' then [] :: r
    else (c :: r.headD []) :: r.tail

/-- JavaScript `s.split(' ')`. -/
def splitSpace (s : String) : List String :=
  (splitSpaceChars s.data).map String.mk

/-- JavaScript `parts.join(' ')`. -/
def joinWithSpace : List String → String
  | [] => ""
  | [s] => s
  | s :: rest => s ++ " " ++ joinWithSpace rest

/-- JavaScript `s.split('@')[0]`. -/
def beforeAt (s : String) : String :=
  String.mk (s.data.takeWhile (fun c => c ≠ '@'))

/-! ## Knowledge search service (`knowledgeSearchService.js`) -/

/-- One entry of a per-category knowledge-base file: a text chunk with its
precomputed embedding (`{content, source, embedding}`). -/
structure KBVector (α : Type) where
  content : String
  source : String
  embedding : List α
  deriving Repr, DecidableEq

/-- An entry scored against a query: `{...vector, similarity}` as produced
by the `map` inside `search`. -/
structure ScoredVector (α : Type) where
  content : String
  source : String
  embedding : List α
  similarity : α
  deriving Repr, DecidableEq

/-- Number of top results returned by `search` (`TOP_K = 3`). -/
def TOP_K : Nat := 3

/-- `cosineSimilarity(vecA, vecB)` from `knowledgeSearchService.js`:
accumulates the dot product and the two squared norms over the indices of
`vecA`, then returns `dot / (sqrt normA * sqrt normB)`.  The square root of
the float implementation is passed in as a function parameter. -/
def cosineAccum [Semiring α] : List α → List α → α × α × α
  | [], _ => (0, 0, 0)
  | a :: as, bs =>
    let b := bs.headD 0
    let (d, na, nb) := cosineAccum as bs.tail
    (d + a * b, na + a * a, nb + b * b)

def cosineSimilarity [Field α] (sqrt : α → α) (vecA vecB : List α) : α :=
  let (d, na, nb) := cosineAccum vecA vecB
  d / (sqrt na * sqrt nb)

/-- The module-level `loadedBases` map: category name → cached corpus. -/
def KBState (α : Type) : Type := List (String × List (KBVector α))

/-- The knowledge-base files on disk, as an oracle: `none` models a missing
file, an unreadable file or a JSON parse error (all are caught together in
the source). -/
def KBFiles (α : Type) : Type := String → Option (List (KBVector α))

/-- `getKnowledgeBase(category)`: return the cached corpus when present;
otherwise read the file, caching the parsed corpus on success and the
empty list on any failure ("Cache empty result to prevent re-reading a
missing file"). -/
def getKnowledgeBase (files : KBFiles α) (st : KBState α) (category : String) :
    KBState α × List (KBVector α) :=
  match st.lookup category with
  | some kb => (st, kb)
  | none =>
    match files category with
    | some kb => ((category, kb) :: st, kb)
    | none => ((category, []) :: st, [])

/-- Stable insertion of a scored chunk into a list of chunks that came
later in the corpus: the new element goes before the first element whose
similarity is ≤ its own, hence before every tie.  Together with
`sortBySim` this is the stable sort performed by
`Array.prototype.sort((a, b) => b.similarity - a.similarity)`. -/
def insertDesc [LinearOrder α] (x : ScoredVector α) :
    List (ScoredVector α) → List (ScoredVector α)
  | [] => [x]
  | y :: ys => if y.similarity ≤ x.similarity then x :: y :: ys else y :: insertDesc x ys

/-- Stable sort by descending similarity (insertion sort). -/
def sortBySim [LinearOrder α] : List (ScoredVector α) → List (ScoredVector α)
  | [] => []
  | x :: xs => insertDesc x (sortBySim xs)

/-- `search(query, category)`: load the corpus (empty corpus → empty result),
embed the query, score every chunk, sort by descending similarity and keep
the first `TOP_K`.  The embedding call may throw; the `catch` block turns
any error into the empty result list, so the returned `Except` is always
`ok`. -/
def search [LinearOrderedField α] (embed : String → Except String (List α))
    (sqrt : α → α) (files : KBFiles α) (st : KBState α)
    (query category : String) :
    KBState α × Except String (List (ScoredVector α)) :=
  let loaded := getKnowledgeBase files st category
  if loaded.snd.length = 0 then
    (loaded.fst, .ok [])
  else
    match embed query with
    | .error _ => (loaded.fst, .ok [])
    | .ok queryEmbedding =>
      let similarities := loaded.snd.map (fun v =>
        ⟨v.content, v.source, v.embedding,
          cosineSimilarity sqrt queryEmbedding v.embedding⟩)
      let topResults := (sortBySim similarities).take TOP_K
      (loaded.fst, .ok topResults)

/-! ## Retry and backoff (queue service) -/

/-- Kind of backoff configured on a queue (`backoff.type`). -/
inductive BackoffType where
  | exponential
  | fixed
  deriving Repr, DecidableEq

/-- Default job options of one Bull queue, as configured in
`initializeQueues`. -/
structure JobOptions where
  removeOnComplete : Nat
  removeOnFail : Nat
  attempts : Nat
  backoffType : BackoffType
  backoffDelay : Nat
  deriving Repr, DecidableEq

/-- `media processing` queue options. -/
def mediaProcessingOptions : JobOptions :=
  ⟨50, 100, 3, .exponential, 2000⟩

/-- `summary generation` queue options. -/
def summaryGenerationOptions : JobOptions :=
  ⟨20, 50, 2, .exponential, 5000⟩

/-- `message response` queue options. -/
def messageResponseOptions : JobOptions :=
  ⟨100, 50, 3, .fixed, 1000⟩

/-- Modelled from the spec: the backoff delay computed by the external
queue library (Bull) from a queue's configured policy, which is not part
of this repository's sources.  §4.3: "backoff delay is computed from
attempt number (exponential: `base * 2^(attempt-1)`; fixed: constant)". -/
def computeBackoffDelay (ty : BackoffType) (base : Nat) (attempt : Nat) : Nat :=
  match ty with
  | .exponential => base * 2 ^ (attempt - 1)
  | .fixed => base

/-- Body of `retryOperation`: `attempt` is the 1-based loop counter,
`fuel` the number of iterations still allowed (initially `maxRetries`).
Returns the final outcome together with the list of delays slept, in
order.  A delay `retryDelay * 2 ^ (attempt - 1)` is computed after the
failure of attempt `attempt` whenever it was not the last allowed one. -/
def retryFrom (retryDelay : Nat) (op : Nat → Except String A) (attempt : Nat) :
    Nat → String → Except String A × List Nat
  | 0, lastError => (.error lastError, [])
  | fuel + 1, _ =>
    match op attempt with
    | .ok a => (.ok a, [])
    | .error e =>
      if fuel = 0 then
        (.error e, [])
      else
        ((retryFrom retryDelay op (attempt + 1) fuel e).fst,
          retryDelay * 2 ^ (attempt - 1) :: (retryFrom retryDelay op (attempt + 1) fuel e).snd)

/-- `retryOperation(operation, maxRetries)`: run `op` for attempts
`1 .. maxRetries`, sleeping an exponential delay between consecutive
attempts; rethrow the last error when every attempt fails.  `op k` is the
outcome of the k-th execution of the operation. -/
def retryOperation (retryDelay maxRetries : Nat) (op : Nat → Except String A) :
    Except String A × List Nat :=
  retryFrom retryDelay op 1 maxRetries ""

/-! ## Message service data model (`messageService.js`) -/

/-- A row of the `messages` table, with the columns the service reads and
writes.  `created_at` is in seconds. -/
structure MessageRow where
  message_id : String
  chat_id : String
  sender_id : String
  sender_name : String
  message_type : String
  content : String
  media_url : Option String
  media_type : Option String
  is_group : Bool
  processed : Bool
  created_at : Nat
  instance_id : String
  deriving Repr, DecidableEq

/-- A row of the `group_summaries` table. -/
structure SummaryRow where
  chat_id : String
  summary_period : String
  summary_text : String
  message_count : Nat
  start_date : Nat
  end_date : Nat
  deriving Repr, DecidableEq

/-- Entry pushed to the rolling `group_messages:<chatId>` redis list. -/
structure GroupCachedMsg where
  messageId : String
  content : String
  senderName : String
  timestamp : Nat
  deriving Repr, DecidableEq

/-- Payload of a media-processing job
(`{messageId, chatId, mediaUrl, mediaType, content}`). -/
structure MediaJobData where
  messageId : String
  chatId : String
  mediaUrl : Option String
  mediaType : Option String
  content : String
  deriving Repr, DecidableEq

/-- Payload of a summary-generation job
(`{chatId, period, requesterId, force}`). -/
structure SummaryJobData where
  chatId : String
  period : String
  requesterId : String
  force : Bool
  deriving Repr, DecidableEq

/-- Result of a file-system `access`/`readFile` on the per-contact
knowledge file: found with its content, `ENOENT`, or another error. -/
inductive FsResult where
  | found (content : String)
  | enoent
  | otherError
  deriving Repr, DecidableEq

/-- Outcome reported by the ingestion gate (§4.1 `ingest -> created | skipped`;
in the source the skip is the early return after the dedup lookup). -/
inductive IngestResult where
  | created
  | skipped
  deriving Repr, DecidableEq

/-- External collaborators of the message service, as oracles: which
database operations succeed, configuration, and the AI providers.
An `Except.error` models a thrown exception / rejected promise. -/
structure Env where
  adminChatId : Option String
  selectOk : Bool
  insertMessageOk : Bool
  insertSummaryOk : Bool
  updateProcessedOk : Bool
  summarize : String → Except String String
  aiText : String → Except String String
  aiSummary : List MessageRow → String → Except String String
  embed : String → Except String (List ℚ)
  sqrtQ : ℚ → ℚ
  kbFiles : KBFiles ℚ
  fsAccess : String → FsResult

/-- Mutable state touched by the message pipeline: the two database
tables, the redis caches, the in-process support-session map and the
knowledge-corpus cache.  `now` is the current time in seconds. -/
structure SysState where
  now : Nat
  messages : List MessageRow
  summaries : List SummaryRow
  cache : List (String × String)
  groupCache : List (String × List GroupCachedMsg)
  supportChats : List (String × String)
  kb : KBState ℚ

/-- Observable side effects, in order of occurrence. -/
inductive Effect where
  | send (chatId text : String)
  | enqueueMedia (jobType : Option String) (priority : Nat) (data : MediaJobData)
  | enqueueSummary (data : SummaryJobData)
  | aiSummaryCall
  | aiTextCall
  | markProcessedCall (id : String)
  | cacheSet (key value : String) (ttl : Nat)
  | fileWrite (path content : String)
  deriving Repr, DecidableEq

/-- Is the effect an outbound send? -/
def Effect.isSend : Effect → Bool
  | .send _ _ => true
  | _ => false

/-- Is the effect a media-job enqueue? -/
def Effect.isEnqueueMedia : Effect → Bool
  | .enqueueMedia _ _ _ => true
  | _ => false

/-- The outbound messages of a trace. -/
def sends (tr : List Effect) : List Effect := tr.filter Effect.isSend

/-- The media-job enqueues of a trace. -/
def mediaEnqueues (tr : List Effect) : List Effect := tr.filter Effect.isEnqueueMedia

/-- Number of `messages` rows carrying a given provider message id. -/
def msgCount (st : SysState) (id : String) : Nat :=
  (st.messages.filter (fun r => r.message_id == id)).length

/-! ## Ingestion (`extractMessageData`, `saveMessage`, `getMessageById`) -/

/-- The `key` object of an EvolutionAPI message. -/
structure RawKey where
  id : String
  remoteJid : String
  participant : Option String
  fromMe : Bool
  deriving Repr, DecidableEq

/-- The `message` object of an EvolutionAPI message: exactly the variants
`extractMessageData` distinguishes, in their match order. -/
inductive RawBody where
  | conversation (text : String)
  | extendedText (text : String)
  | image (caption : Option String) (url : String)
  | video (caption : Option String) (url : String)
  | audio (url : String)
  | document (caption : Option String) (url : String)
  | sticker (url : String)
  | unknown
  deriving Repr, DecidableEq

/-- A raw EvolutionAPI webhook message. -/
structure RawMessage where
  key : RawKey
  body : RawBody
  pushName : Option String
  messageTimestamp : Nat
  deriving Repr, DecidableEq

/-- The canonical record `extractMessageData` builds. -/
structure MessageData where
  messageId : String
  chatId : String
  senderId : String
  senderName : String
  messageType : String
  content : String
  mediaUrl : Option String
  mediaType : Option String
  fromMe : Bool
  timestamp : Nat
  instanceId : String
  deriving Repr, DecidableEq

/-- `extractMessageData(message, instance)`. -/
def extractMessageData (m : RawMessage) (instanceId : String) : MessageData :=
  let (messageType, content, mediaUrl, mediaType) :
      String × String × Option String × Option String :=
    match m.body with
    | .conversation t => ("text", t, none, none)
    | .extendedText t => ("text", t, none, none)
    | .image cap url => ("image", cap.getD "", some url, some "image")
    | .video cap url => ("video", cap.getD "", some url, some "video")
    | .audio url => ("audio", "", some url, some "audio")
    | .document cap url => ("document", cap.getD "", some url, some "document")
    | .sticker url => ("sticker", "", some url, some "sticker")
    | .unknown => ("text", "", none, none)
  { messageId := m.key.id
    chatId := m.key.remoteJid
    senderId := if m.key.fromMe then instanceId else m.key.participant.getD m.key.remoteJid
    senderName := m.pushName.getD "Unknown"
    messageType := messageType
    content := content
    mediaUrl := mediaUrl
    mediaType := mediaType
    fromMe := m.key.fromMe
    timestamp := m.messageTimestamp
    instanceId := instanceId }

/-- `getMessageById(messageId)`: `SELECT * FROM messages WHERE message_id = $1`;
a storage error is caught and turned into `null`. -/
def getMessageById (env : Env) (st : SysState) (messageId : String) :
    Option MessageRow :=
  if env.selectOk then st.messages.find? (fun r => r.message_id == messageId)
  else none

/-- `saveMessage(messageData)`: `INSERT INTO messages ...`; throws when the
store is unavailable or on a duplicate key (unique `message_id`). -/
def saveMessage (env : Env) (st : SysState) (d : MessageData) :
    SysState × Except String MessageRow :=
  if env.insertMessageOk = false then
    (st, .error "storage unavailable")
  else if st.messages.any (fun r => r.message_id == d.messageId) then
    (st, .error "duplicate key value violates unique constraint")
  else
    let row : MessageRow :=
      { message_id := d.messageId
        chat_id := d.chatId
        sender_id := d.senderId
        sender_name := d.senderName
        message_type := d.messageType
        content := d.content
        media_url := d.mediaUrl
        media_type := d.mediaType
        is_group := strContains d.chatId "@g.us"
        processed := false
        created_at := d.timestamp
        instance_id := d.instanceId }
    ({ st with messages := st.messages ++ [row] }, .ok row)

/-- `markMessageProcessed(messageId)`: `UPDATE messages SET processed = true ...`;
a storage error is caught and logged, the function returns normally. -/
def markMessageProcessed (env : Env) (st : SysState) (messageId : String) :
    SysState × List Effect :=
  if env.updateProcessedOk then
    ({ st with messages := st.messages.map (fun r =>
        if r.message_id == messageId then { r with processed := true } else r) },
      [.markProcessedCall messageId])
  else
    (st, [.markProcessedCall messageId])

/-! ## Summaries (`generateGroupSummary`, `saveSummary`, `summaryService`) -/

/-- Hours of lookback for a summary period (`getGroupMessages` switch). -/
def periodHours (period : String) : Nat :=
  if period = "24h" then 24
  else if period = "48h" then 48
  else if period = "1week" then 168
  else 24

/-- `getGroupMessages(chatId, period)`: window query on the `messages`
table (`created_at >= NOW() - INTERVAL .. ORDER BY created_at ASC LIMIT 500`);
a storage error propagates. -/
def sortByCreatedAsc (l : List MessageRow) : List MessageRow :=
  List.insertionSort (fun a b => a.created_at ≤ b.created_at) l

def inWindow (st : SysState) (hours : Nat) (r : MessageRow) : Bool :=
  st.now - hours * 3600 ≤ r.created_at

def getGroupMessages (env : Env) (st : SysState) (chatId period : String) :
    Except String (List MessageRow) :=
  if env.selectOk = false then .error "storage unavailable"
  else
    let hours := periodHours period
    let rows := st.messages.filter (fun m =>
      m.chat_id == chatId && m.is_group && inWindow st hours m)
    .ok ((sortByCreatedAsc rows).take 500)

/-- Replace-or-insert on `group_summaries`, keyed by
`(chat_id, summary_period, start_date)` (the `ON CONFLICT ... DO UPDATE`). -/
def upsertSummary (l : List SummaryRow) (row : SummaryRow) : List SummaryRow :=
  if l.any (fun s => s.chat_id == row.chat_id &&
      s.summary_period == row.summary_period && s.start_date == row.start_date) then
    l.map (fun s =>
      if s.chat_id == row.chat_id && s.summary_period == row.summary_period &&
          s.start_date == row.start_date then
        { s with summary_text := row.summary_text, message_count := row.message_count }
      else s)
  else l ++ [row]

/-- `saveSummary(chatId, period, summaryText, messageCount)`: upsert into
`group_summaries`; a storage error is caught and logged, the function
returns normally. -/
def saveSummary (env : Env) (st : SysState)
    (chatId period summaryText : String) (messageCount : Nat) :
    SysState × List Effect :=
  if env.insertSummaryOk = false then (st, [])
  else
    let sub :=
      if period = "24h" then 24 * 3600
      else if period = "48h" then 48 * 3600
      else if period = "1week" then 168 * 3600
      else 0
    let row : SummaryRow :=
      { chat_id := chatId, summary_period := period, summary_text := summaryText
        message_count := messageCount, start_date := st.now - sub, end_date := st.now }
    ({ st with summaries := upsertSummary st.summaries row }, [])

/-- `generateGroupSummary(chatId, period)`: cached digest when present,
otherwise window query, empty window → `null` sentinel, otherwise one AI
generation call, a write-through cache set with the period-scaled TTL, and
the audit upsert. -/
def generateGroupSummary (env : Env) (st : SysState) (chatId period : String) :
    SysState × List Effect × Except String (Option String) :=
  let cacheKey := "summary:" ++ chatId ++ ":" ++ period
  match st.cache.lookup cacheKey with
  | some cached => (st, [], .ok (some cached))
  | none =>
    match getGroupMessages env st chatId period with
    | .error e => (st, [], .error e)
    | .ok messages =>
      if messages.length = 0 then (st, [], .ok none)
      else
        match env.aiSummary messages period with
        | .error e => (st, [.aiSummaryCall], .error e)
        | .ok summary =>
          let ttl := if period = "24h" then 3600 else if period = "48h" then 7200 else 14400
          let st1 := { st with cache := (cacheKey, summary) :: st.cache }
          let saved := saveSummary env st1 chatId period summary messages.length
          (saved.fst, [.aiSummaryCall, .cacheSet cacheKey summary ttl] ++ saved.snd,
            .ok (some summary))

/-- `MIN_MESSAGES_FOR_SUMMARY` from `summaryService.js`. -/
def MIN_MESSAGES_FOR_SUMMARY : Nat := 5

/-- `requestSummary(chatId, requesterId)` from `summaryService.js`:
validate that the chat exists and is a group, require at least
`MIN_MESSAGES_FOR_SUMMARY` messages in the default 24h window (below the
threshold an error is thrown), then enqueue a forced summary job.  Returns
the message count on success. -/
def requestSummary (env : Env) (st : SysState) (chatId requesterId : String) :
    SysState × List Effect × Except String Nat :=
  if env.selectOk = false then (st, [], .error "storage unavailable")
  else
    match st.messages.find? (fun r => r.chat_id == chatId) with
    | none => (st, [], .error "Chat nao encontrado")
    | some r =>
      if r.is_group = false then
        (st, [], .error "Resumos so podem ser gerados para grupos")
      else
        let messageCount := (st.messages.filter (fun m =>
          m.chat_id == chatId && m.is_group && inWindow st 24 m)).length
        if messageCount < MIN_MESSAGES_FOR_SUMMARY then
          (st, [], .error "Nao ha mensagens suficientes para gerar um resumo")
        else
          (st, [.enqueueSummary ⟨chatId, "24h", requesterId, true⟩], .ok messageCount)

/-! ## Router and command handlers -/

/-- `getMediaPriority(mediaType)` from the queue service. -/
def getMediaPriority : Option String → Nat
  | some "text" => 1
  | some "audio" => 2
  | some "image" => 3
  | some "document" => 4
  | some "video" => 5
  | _ => 5

/-- The one-shot / toggle commands of `processIndividualMessage`, produced
by its prefix-and-first-token parse (`//` then `/`; first space-delimited
token is the command, the remainder the query). -/
inductive Command where
  | apoioaluno
  | historico
  | knowledge (category : String) (query : String)
  | base
  deriving Repr, DecidableEq

/-- The command dispatch of `processIndividualMessage` lines 179-207:
`none` means no recognized command matched (including unknown prefixed
commands, which fall through). -/
def parseCommand (content : String) : Option Command :=
  if content != "" && (strStartsWith content "//" || strStartsWith content "/") then
    let commandPrefix := if strStartsWith content "//" then "//" else "/"
    let commandBody := strDrop content commandPrefix.length
    let parts := splitSpace commandBody
    let command := parts.headD ""
    let query := joinWithSpace parts.tail
    if commandPrefix == "//" && command == "apoioaluno" then some .apoioaluno
    else if command == "historico" then some .historico
    else if command == "curso" || command == "projetos" || command == "orientacoes" then
      some (.knowledge command query)
    else if command == "base" then some .base
    else none
  else none

/-- `queueMediaProcessing(message)` + `addMediaProcessingJob(jobData)`:
enqueue on the media queue, keyed by the media kind, with the
`{messageId, chatId, mediaUrl, mediaType, content}` payload. -/
def queueMediaProcessing (st : SysState) (row : MessageRow) :
    SysState × List Effect :=
  let jobData : MediaJobData :=
    ⟨row.message_id, row.chat_id, row.media_url, row.media_type, row.content⟩
  (st, [.enqueueMedia row.media_type (getMediaPriority row.media_type) jobData])

/-- `processTextMessage(message)`: inline AI answer; a falsy response is
not sent, an AI failure is caught and only logged. -/
def processTextMessage (env : Env) (st : SysState) (row : MessageRow) :
    SysState × List Effect :=
  match env.aiText row.content with
  | .ok response =>
    if response != "" then (st, [.aiTextCall, .send row.chat_id response])
    else (st, [.aiTextCall])
  | .error _ => (st, [.aiTextCall])

/-- `activateSupportMode(chatId, category)`: set the session and confirm. -/
def activateSupportMode (st : SysState) (chatId category : String) :
    SysState × List Effect :=
  let response :=
    if category = "curso" then
      "Modo de Apoio ao Aluno ativado. Faca suas perguntas sobre o curso. Para sair, digite obrigado."
    else
      "Modo de Apoio (" ++ category ++ ") ativado. Faca suas perguntas. Para sair, digite obrigado."
  ({ st with supportChats := (chatId, category) :: st.supportChats },
    [.send chatId response])

/-- `deactivateSupportMode(chatId)`: clear the session and say goodbye. -/
def deactivateSupportMode (st : SysState) (chatId : String) :
    SysState × List Effect :=
  ({ st with supportChats := st.supportChats.filter (fun p => p.1 != chatId) },
    [.send chatId "Modo de Apoio finalizado. Ate a proxima!"])

/-- `handleSupportQuery(message, category)`: retrieval + inline AI answer,
every failure converted to a user-facing message, `finally` marks the
message processed. -/
def handleSupportQuery (env : Env) (st : SysState) (row : MessageRow)
    (category : String) : SysState × List Effect :=
  let tryResult : SysState × List Effect :=
    match search env.embed env.sqrtQ env.kbFiles st.kb row.content category with
    | (kb1, .ok searchResults) =>
      let st1 := { st with kb := kb1 }
      if searchResults.length = 0 then
        (st1, [.send row.chat_id
          "Desculpe, nao encontrei uma resposta para sua pergunta na base de conhecimento."])
      else
        let context := String.intercalate "\n\n---\n\n" (searchResults.map (·.content))
        let prompt := "Contexto:\n" ++ context ++ "\nPergunta do Aluno:\n" ++ row.content
        let reply : List Effect :=
          match env.aiText prompt with
          | .ok response => [.aiTextCall, .send row.chat_id response]
          | .error _ =>
            [.aiTextCall, .send row.chat_id
              "Ocorreu um erro ao processar sua pergunta. Tente novamente."]
        (st1, reply)
    | (kb1, .error _) =>
      ({ st with kb := kb1 },
        [.send row.chat_id "Ocorreu um erro ao processar sua pergunta. Tente novamente."])
  let marked := markMessageProcessed env tryResult.fst row.message_id
  (marked.fst, tryResult.snd ++ marked.snd)

/-- `handleHistoryCommand(message)`: without a configured `ADMIN_CHAT_ID`
the command is ignored; otherwise one admin message (report or failure
notice) and a `finally` marking the message processed. -/
def handleHistoryCommand (env : Env) (st : SysState) (row : MessageRow) :
    SysState × List Effect :=
  match env.adminChatId with
  | none => (st, [])
  | some admin =>
    let tryTrace : List Effect :=
      match env.summarize row.chat_id with
      | .ok summary =>
        [.send admin ("Relatorio de Historico - Solicitado por: " ++ row.sender_id ++
          " - Na conversa com: " ++ row.chat_id ++ " - Resumo dos Topicos: " ++ summary)]
      | .error _ =>
        [.send admin ("Falha ao gerar o historico para o chat " ++ row.chat_id ++ ".")]
    let marked := markMessageProcessed env st row.message_id
    (marked.fst, tryTrace ++ marked.snd)

/-- `handleKnowledgeCommand(category, query, message)`: ignored without an
admin chat; an empty query sends one notice and returns before the
`try/finally`; otherwise one admin message (results, no-results, or
failure notice) and a `finally` marking the message processed. -/
def handleKnowledgeCommand (env : Env) (st : SysState)
    (category query : String) (row : MessageRow) : SysState × List Effect :=
  match env.adminChatId with
  | none => (st, [])
  | some admin =>
    if query = "" then
      (st, [.send admin ("Comando recebido de " ++ row.chat_id ++ " sem texto para busca.")])
    else
      let tryResult : SysState × List Effect :=
        match search env.embed env.sqrtQ env.kbFiles st.kb query category with
        | (kb1, .ok results) =>
          let st1 := { st with kb := kb1 }
          let adminResponse :=
            if results.length > 0 then
              "Busca na Base de Conhecimento: " ++ String.intercalate "\n\n"
                (results.map (fun r => "Fonte: " ++ r.source ++ " --- " ++ r.content))
            else
              "Nenhum resultado relevante encontrado na base de conhecimento."
          (st1, [.send admin adminResponse])
        | (kb1, .error _) =>
          ({ st with kb := kb1 },
            [.send admin ("Falha ao processar a busca na categoria " ++ category ++ ".")])
      let marked := markMessageProcessed env tryResult.fst row.message_id
      (marked.fst, tryResult.snd ++ marked.snd)

/-- `handleBaseCommand(message)`: ignored without an admin chat; otherwise
retrieve the per-contact knowledge file, or bootstrap it from the last
hour of history, always sending exactly one admin message, with a
`finally` marking the message processed. -/
def handleBaseCommand (env : Env) (st : SysState) (row : MessageRow) :
    SysState × List Effect :=
  let chatId := row.chat_id
  let knowledgeFile := "conhecimento/orientacoes/" ++ chatId ++ ".txt"
  match env.adminChatId with
  | none => (st, [])
  | some admin =>
    let tryTrace : List Effect :=
      match env.fsAccess knowledgeFile with
      | .found content =>
        [.send admin ("Base de conhecimento recuperada para " ++ chatId ++ ":\n\n" ++ content)]
      | .enoent =>
        if env.selectOk = false then
          [.send admin ("Falha ao criar a base de conhecimento para " ++ chatId ++ ".")]
        else
          let historyRows := sortByCreatedAsc (st.messages.filter (fun r =>
            r.chat_id == chatId && inWindow st 1 r))
          if historyRows.length = 0 then
            [.send admin ("Nenhuma mensagem na ultima hora para criar uma base de conhecimento para "
              ++ chatId ++ ".")]
          else
            let formattedHistory := String.intercalate "\n" (historyRows.map (fun msg =>
              beforeAt msg.sender_id ++ ": " ++ msg.content))
            [.fileWrite knowledgeFile formattedHistory,
              .send admin ("Nova base de conhecimento criada para " ++ chatId ++ ".")]
      | .otherError =>
        [.send admin ("Erro ao acessar a base de conhecimento para " ++ chatId ++ ".")]
    let marked := markMessageProcessed env st row.message_id
    (marked.fst, tryTrace ++ marked.snd)

/-- `handleSummaryCommand(message)` (group `/resumo`): ignored without an
admin chat; otherwise request an on-demand summary job, reporting success
or failure to the admin, with a `finally` marking the message processed. -/
def handleSummaryCommand (env : Env) (st : SysState) (row : MessageRow) :
    SysState × List Effect :=
  match env.adminChatId with
  | none => (st, [])
  | some admin =>
    let req := requestSummary env st row.chat_id admin
    let notice : List Effect :=
      match req.snd.snd with
      | .ok _ =>
        [.send admin ("Solicitacao de resumo para o grupo " ++ row.chat_id ++
          " foi enfileirada. O resultado sera enviado em breve.")]
      | .error e =>
        [.send admin ("Falha ao solicitar resumo para o grupo " ++ row.chat_id ++ ": " ++ e)]
    let marked := markMessageProcessed env req.fst row.message_id
    (marked.fst, req.snd.fst ++ notice ++ marked.snd)

/-- `extractSummaryPeriod(content)`. -/
def extractSummaryPeriod (content : String) : String :=
  let lowerContent := strToLower content
  if strContains lowerContent "24h" || strContains lowerContent "24 horas" then "24h"
  else if strContains lowerContent "48h" || strContains lowerContent "48 horas" then "48h"
  else if strContains lowerContent "semana" || strContains lowerContent "week" then "1week"
  else "24h"

/-- `isSummaryRequest(content)`: keyword match on the lowercased content. -/
def summaryKeywords : List String :=
  ["resumo", "summary", "resumir", "summarize",
   "24h", "48h", "1 semana", "1 week",
   "ultimas 24 horas", "last 24 hours",
   "ultimas 48 horas", "last 48 hours",
   "ultima semana", "last week"]

def isSummaryRequest (content : String) : Bool :=
  summaryKeywords.any (fun keyword => strContains (strToLower content) keyword)

/-- `handleSummaryRequest(message)`: generate (or fetch) the digest and
answer in the group; failures become a user-facing error message. -/
def handleSummaryRequest (env : Env) (st : SysState) (row : MessageRow) :
    SysState × List Effect :=
  let period := extractSummaryPeriod row.content
  match generateGroupSummary env st row.chat_id period with
  | (st1, tr1, .ok (some summary)) => (st1, tr1 ++ [.send row.chat_id summary])
  | (st1, tr1, .ok none) =>
    (st1, tr1 ++ [.send row.chat_id "Nao ha mensagens suficientes para gerar um resumo."])
  | (st1, tr1, .error _) =>
    (st1, tr1 ++ [.send row.chat_id "Erro ao gerar resumo. Tente novamente mais tarde."])

/-- `storeGroupMessage(message)`: prepend to the rolling redis list for the
chat, trimmed to the most recent 1000 entries. -/
def storeGroupMessage (st : SysState) (row : MessageRow) :
    SysState × List Effect :=
  let cacheKey := "group_messages:" ++ row.chat_id
  let entry : GroupCachedMsg := ⟨row.message_id, row.content, row.sender_name, row.created_at⟩
  let current := (st.groupCache.lookup cacheKey).getD []
  let pushed := entry :: current
  let trimmed := if pushed.length > 1000 then pushed.take 1000 else pushed
  ({ st with groupCache :=
      (cacheKey, trimmed) :: st.groupCache.filter (fun p => p.1 != cacheKey) }, [])

/-- `processIndividualMessage(message)` lines 162-233: support-mode state
machine first, then first-match-wins command dispatch, then the media /
plain-text fallthrough followed by marking the message processed. -/
def processIndividualMessage (env : Env) (st : SysState) (row : MessageRow) :
    SysState × List Effect :=
  let content := strTrim row.content
  let lowerContent := strToLower content
  let chatId := row.chat_id
  match st.supportChats.lookup chatId with
  | some category =>
    if stripWhitespace lowerContent = "obrigado" then
      deactivateSupportMode st chatId
    else
      handleSupportQuery env st row category
  | none =>
    match parseCommand content with
    | some .apoioaluno => activateSupportMode st chatId "curso"
    | some .historico => handleHistoryCommand env st row
    | some (.knowledge category query) => handleKnowledgeCommand env st category query row
    | some .base => handleBaseCommand env st row
    | none =>
      let handled :=
        if row.media_url.isSome && row.media_type == some "audio" then
          queueMediaProcessing st row
        else if content != "" && row.message_type == "text" then
          processTextMessage env st row
        else (st, [])
      let marked := markMessageProcessed env handled.fst row.message_id
      (marked.fst, handled.snd ++ marked.snd)

/-- `processGroupMessage(message)`: `/resumo` command, then summary-request
keywords, otherwise archive into the rolling cache and mark processed. -/
def processGroupMessage (env : Env) (st : SysState) (row : MessageRow) :
    SysState × List Effect :=
  if row.content != "" && strTrim row.content == "/resumo" then
    handleSummaryCommand env st row
  else if row.content != "" && isSummaryRequest row.content then
    handleSummaryRequest env st row
  else
    let stored := storeGroupMessage st row
    let marked := markMessageProcessed env stored.fst row.message_id
    (marked.fst, stored.snd ++ marked.snd)

/-- `processIncomingMessage(message, instance)`: extract, dedup lookup
(found → skipped, no side effects), persist, then route by group flag. -/
def processIncomingMessage (env : Env) (st : SysState) (m : RawMessage)
    (instanceId : String) : SysState × List Effect × Except String IngestResult :=
  let messageData := extractMessageData m instanceId
  match getMessageById env st messageData.messageId with
  | some _ => (st, [], .ok .skipped)
  | none =>
    match saveMessage env st messageData with
    | (st1, .error e) => (st1, [], .error e)
    | (st1, .ok savedMessage) =>
      let isGroup := strContains messageData.chatId "@g.us"
      let routed :=
        if isGroup then processGroupMessage env st1 savedMessage
        else processIndividualMessage env st1 savedMessage
      (routed.fst, routed.snd, .ok .created)

/-! ## Concrete fixtures used to instantiate the theorems -/

/-- Empty system state. -/
def st0 : SysState := ⟨0, [], [], [], [], [], []⟩

/-- A fully healthy environment with a configured admin chat. -/
def envBase : Env :=
  { adminChatId := some "admin@s.whatsapp.net"
    selectOk := true
    insertMessageOk := true
    insertSummaryOk := true
    updateProcessedOk := true
    summarize := fun _ => .ok "topicos"
    aiText := fun _ => .ok "resposta"
    aiSummary := fun _ _ => .ok "SUMMARY"
    embed := fun _ => .ok [1]
    sqrtQ := fun q => q
    kbFiles := fun _ => none
    fsAccess := fun _ => .enoent }

/-- `envBase` with `ADMIN_CHAT_ID` not configured. -/
def envNoAdmin : Env := { envBase with adminChatId := none }

/-- An individual text message. -/
def rowText : MessageRow :=
  ⟨"m1", "551@s.whatsapp.net", "551@s.whatsapp.net", "User", "text", "ola",
    none, none, false, false, 50, "inst"⟩

/-- An individual image message with a media reference and no caption. -/
def rowImage : MessageRow :=
  ⟨"m2", "551@s.whatsapp.net", "551@s.whatsapp.net", "User", "image", "",
    some "http://img", some "image", false, false, 50, "inst"⟩

/-- A group message row for chat `g1@g.us` at a given time. -/
def groupRow (id : String) (t : Nat) : MessageRow :=
  ⟨id, "g1@g.us", "551@s.whatsapp.net", "User", "text", "oi",
    none, none, true, false, t, "inst"⟩

/-- A state whose 24h window for `g1@g.us` holds three group messages. -/
def stThree : SysState :=
  ⟨100000, [groupRow "g1" 99000, groupRow "g2" 99100, groupRow "g3" 99200],
    [], [], [], [], []⟩

/-- The two-chunk example corpus of §8, over the reals. -/
def exampleCorpus : List (KBVector ℝ) :=
  [⟨"A", "srcA", [1, 0]⟩, ⟨"B", "srcB", [0, 1]⟩]

/-- Knowledge files exposing `exampleCorpus` under the `curso` category. -/
def exampleFiles : KBFiles ℝ :=
  fun category => if category == "curso" then some exampleCorpus else none

/-- An embedding provider that returns `[1, 0]` for every query. -/
def exampleEmbed : String → Except String (List ℝ) :=
  fun _ => .ok [1, 0]

/-- A one-chunk rational corpus used to exercise failure paths. -/
def ratCorpus : List (KBVector ℚ) := [⟨"A", "srcA", [1]⟩]

/-- Knowledge files exposing `ratCorpus` under the `curso` category. -/
def ratFiles : KBFiles ℚ :=
  fun category => if category == "curso" then some ratCorpus else none

/-- An embedding provider that always throws. -/
def failEmbed : String → Except String (List ℚ) :=
  fun _ => .error "embedding failure"

/-- An individual audio message with a media reference. -/
def rowAudio : MessageRow :=
  ⟨"m3", "551@s.whatsapp.net", "551@s.whatsapp.net", "User", "audio", "",
    some "http://a", some "audio", false, false, 50, "inst"⟩

/-- An individual `/historico` command message. -/
def rowHist : MessageRow :=
  ⟨"m4", "551@s.whatsapp.net", "551@s.whatsapp.net", "User", "text", "/historico",
    none, none, false, false, 50, "inst"⟩

/-- A raw gateway text message for an individual chat. -/
def rawText : RawMessage :=
  ⟨⟨"w1", "551@s.whatsapp.net", none, false⟩, .conversation "ola", some "User", 50⟩

/-! ## Theorems -/

theorem retryFrom_delays (d : Nat) (op : Nat → Except String A) :
    ∀ (fuel attempt : Nat) (le : String), 1 ≤ attempt →
      ∃ n, (retryFrom d op attempt fuel le).snd =
        (List.range n).map (fun i => d * 2 ^ (attempt - 1 + i)) := by
  intro fuel
  induction fuel with
  | zero => intro attempt le _; exact ⟨0, by simp [retryFrom]⟩
  | succ m ih =>
    intro attempt le h1
    cases hop : op attempt with
    | ok a => exact ⟨0, by simp [retryFrom, hop]⟩
    | error e =>
      by_cases hm : m = 0
      · exact ⟨0, by simp [retryFrom, hop, hm]⟩
      · obtain ⟨n, hn⟩ := ih (attempt + 1) e (by omega)
        refine ⟨n + 1, ?_⟩
        have hstep : (retryFrom d op attempt (m + 1) le).snd =
            d * 2 ^ (attempt - 1) :: (retryFrom d op (attempt + 1) m e).snd := by
          simp [retryFrom, hop, hm]
        rw [hstep, hn, List.range_succ_eq_map, List.map_cons, List.map_map]
        refine congrArg₂ _ (by simp) ?_
        apply List.map_congr_left
        intro i _
        simp only [Function.comp_apply]
        have h2 : attempt + 1 - 1 + i = attempt - 1 + Nat.succ i := by omega
        rw [h2]

/-- C8: for the exponential retry policy with base delay `d`, the delay
slept after the k-th failed attempt (i.e. before the k-th retry) equals
`d * 2^(k-1)` for every `k ≥ 1`; for the fixed policy the delay is the
constant base delay, independent of the attempt number. -/
theorem backoff_growth :
    (∀ (A : Type) (d maxRetries : Nat) (op : Nat → Except String A) (k : Nat),
      1 ≤ k → ∀ (h : k - 1 < (retryOperation d maxRetries op).snd.length),
      (retryOperation d maxRetries op).snd.get ⟨k - 1, h⟩ = d * 2 ^ (k - 1)) ∧
    (∀ (d k : Nat), computeBackoffDelay .fixed d k = d) := by
  constructor
  · intro A d m op k _ h
    obtain ⟨n, hn⟩ := retryFrom_delays d op m 1 "" (le_refl 1)
    have h' : k - 1 < ((List.range n).map (fun i => d * 2 ^ (1 - 1 + i))).length := by
      rw [retryOperation] at h; rw [← hn]; exact h
    have := List.get_of_eq (show (retryOperation d m op).snd =
      (List.range n).map (fun i => d * 2 ^ (1 - 1 + i)) from hn) ⟨k - 1, h⟩
    rw [this]
    simp [List.get_eq_getElem, List.getElem_map, List.getElem_range]
  · intro d k; rfl

theorem backoff_growth_witness :
    (1:Nat) ≤ 2 ∧
    (retryOperation 1000 3 (fun _ : Nat => (Except.error "boom" : Except String Unit))).snd.get
      ⟨2 - 1, by decide⟩ = 1000 * 2 ^ (2 - 1) :=
  ⟨by decide,
    backoff_growth.1 Unit 1000 3 (fun _ => Except.error "boom") 2 (by decide) (by decide)⟩

/-- C9: once `getKnowledgeBase` fails to load a category (missing file,
read error, or parse error), the empty corpus is cached, so every
subsequent `search` in that category returns the empty list without
consulting the files again — even if the file exists in the later file
oracle. -/
theorem kb_failure_cached {α : Type} [LinearOrderedField α]
    (files1 files2 : KBFiles α) (embed : String → Except String (List α))
    (sqrt : α → α) (st : KBState α) (category q : String)
    (h0 : st.lookup category = none) (h1 : files1 category = none) :
    (getKnowledgeBase files1 st category).snd = [] ∧
    search embed sqrt files2 ((getKnowledgeBase files1 st category).fst) q category =
      ((getKnowledgeBase files1 st category).fst, .ok []) := by
  have hload : getKnowledgeBase files1 st category = ((category, []) :: st, []) := by
    simp [getKnowledgeBase, h0, h1]
  refine ⟨by rw [hload], ?_⟩
  rw [hload]
  simp [search, getKnowledgeBase, List.lookup]

theorem kb_failure_cached_witness :
    ([] : KBState ℚ).lookup "curso" = none ∧
    ((fun _ => none : KBFiles ℚ) "curso" = none) ∧
    ((getKnowledgeBase (fun _ => none : KBFiles ℚ) [] "curso").snd = [] ∧
      search (fun _ => .ok [1]) id ratFiles
        ((getKnowledgeBase (fun _ => none : KBFiles ℚ) [] "curso").fst) "q" "curso" =
        ((getKnowledgeBase (fun _ => none : KBFiles ℚ) [] "curso").fst, .ok [])) :=
  ⟨rfl, rfl,
    kb_failure_cached (fun _ => none) ratFiles (fun _ => .ok [1]) id [] "curso" "q" rfl rfl⟩

/-- C6 counterexample: with a non-empty corpus and an embedding call that
throws, `search` does not propagate the failure — it returns the normal
value `ok []`, never an error. -/
theorem search_error_swallowed_counterexample :
    (search failEmbed id ratFiles [] "q" "curso").snd = .ok [] ∧
    ∀ e : String, (search failEmbed id ratFiles [] "q" "curso").snd ≠ .error e := by
  constructor
  · rfl
  · intro e h
    have : (Except.ok [] : Except String (List (ScoredVector ℚ))) = .error e := by
      rw [← h]; rfl
    exact Except.noConfusion this

/-- C6 (amended): when the embedding call inside `search` throws, `search`
catches the error and returns the empty result list as a normal value (the
corpus cache is still updated by the load step); nothing propagates to the
caller. -/
theorem search_embedding_error_returns_empty {α : Type} [LinearOrderedField α]
    (embed : String → Except String (List α)) (sqrt : α → α)
    (files : KBFiles α) (st : KBState α) (q category e : String)
    (hq : embed q = .error e) :
    search embed sqrt files st q category =
      ((getKnowledgeBase files st category).fst, .ok []) := by
  unfold search
  cases hkb : getKnowledgeBase files st category with
  | mk st' kb =>
    by_cases hlen : kb.length = 0
    · simp [hlen]
    · simp [hlen, hq]

theorem lookup_filter_ne (l : List (String × String)) (k : String) :
    (l.filter (fun p => p.1 != k)).lookup k = none := by
  induction l with
  | nil => rfl
  | cons p t ih =>
    by_cases h : p.1 = k
    · simp only [List.filter_cons]
      have : (p.1 != k) = false := by simp [h]
      rw [this]
      exact ih
    · simp only [List.filter_cons]
      have : (p.1 != k) = true := by simp [h]
      rw [this]
      have hk : (k == p.1) = false := by
        simp only [beq_eq_false_iff_ne, ne_eq]
        exact fun hh => h hh.symm
      cases p with
      | mk a b =>
        simp only [List.lookup]
        simp only at hk
        rw [hk]
        exact ih

theorem markMessageProcessed_supportChats (env : Env) (st : SysState) (id : String) :
    (markMessageProcessed env st id).fst.supportChats = st.supportChats := by
  unfold markMessageProcessed
  split <;> rfl

theorem handleSupportQuery_supportChats (env : Env) (st : SysState)
    (row : MessageRow) (category : String) :
    (handleSupportQuery env st row category).fst.supportChats = st.supportChats := by
  unfold handleSupportQuery
  cases hs : search env.embed env.sqrtQ env.kbFiles st.kb row.content category with
  | mk kb1 res =>
    cases res with
    | ok results =>
      by_cases hlen : results.length = 0
      · simp [hlen, markMessageProcessed_supportChats]
      · cases hai : env.aiText ("Contexto:\n" ++
            String.intercalate "\n\n---\n\n" (results.map (·.content)) ++
            "\nPergunta do Aluno:\n" ++ row.content) <;>
          simp [hlen, hai, markMessageProcessed_supportChats]
    | error e => simp [markMessageProcessed_supportChats]

/-- C3: support-mode state machine.  While a session is active, the exact
token "obrigado" (after lowercasing and whitespace removal) clears the
session; any other inbound text leaves the active category unchanged; and
from the idle state the `//apoioaluno` activation command sets the session
category to `curso`. -/
theorem support_mode_state_machine :
    (∀ (env : Env) (st : SysState) (row : MessageRow) (category : String),
      st.supportChats.lookup row.chat_id = some category →
      stripWhitespace (strToLower (strTrim row.content)) = "obrigado" →
      (processIndividualMessage env st row).fst.supportChats.lookup row.chat_id = none) ∧
    (∀ (env : Env) (st : SysState) (row : MessageRow) (category : String),
      st.supportChats.lookup row.chat_id = some category →
      stripWhitespace (strToLower (strTrim row.content)) ≠ "obrigado" →
      (processIndividualMessage env st row).fst.supportChats.lookup row.chat_id =
        some category) ∧
    (∀ (env : Env) (st : SysState) (row : MessageRow),
      st.supportChats.lookup row.chat_id = none →
      parseCommand (strTrim row.content) = some .apoioaluno →
      (processIndividualMessage env st row).fst.supportChats.lookup row.chat_id =
        some "curso") := by
  refine ⟨?_, ?_, ?_⟩
  · intro env st row category hlook hquit
    unfold processIndividualMessage
    simp only [hlook]
    rw [if_pos hquit]
    unfold deactivateSupportMode
    exact lookup_filter_ne st.supportChats row.chat_id
  · intro env st row category hlook hstay
    unfold processIndividualMessage
    simp only [hlook]
    rw [if_neg hstay]
    rw [handleSupportQuery_supportChats]
    exact hlook
  · intro env st row hlook hcmd
    unfold processIndividualMessage
    simp only [hlook, hcmd]
    unfold activateSupportMode
    simp [List.lookup]

theorem support_mode_state_machine_witness :
    (st0.supportChats.lookup "551@s.whatsapp.net" = none ∧
      parseCommand (strTrim "//apoioaluno") = some .apoioaluno) ∧
    (processIndividualMessage envBase st0
      { rowText with content := "//apoioaluno" }).fst.supportChats.lookup
        "551@s.whatsapp.net" = some "curso" :=
  ⟨⟨rfl, by decide⟩,
    support_mode_state_machine.2.2 envBase st0 { rowText with content := "//apoioaluno" }
      rfl (by decide)⟩

theorem search_embedding_error_returns_empty_witness :
    failEmbed "q" = .error "embedding failure" ∧
    search failEmbed id ratFiles [] "q" "curso" =
      ((getKnowledgeBase ratFiles [] "curso").fst, .ok []) :=
  ⟨rfl, search_embedding_error_returns_empty failEmbed id ratFiles [] "q" "curso"
    "embedding failure" rfl⟩

theorem markMessageProcessed_snd (env : Env) (st : SysState) (id : String) :
    (markMessageProcessed env st id).snd = [.markProcessedCall id] := by
  unfold markMessageProcessed
  split <;> rfl

/-- C4 counterexample: a non-group image message with a media reference
and no command enqueues no media-processing job at all — only audio media
is enqueued, so the claim fails for the image kind. -/
theorem media_routing_counterexample :
    rowImage.media_url.isSome = true ∧ rowImage.media_type = some "image" ∧
    mediaEnqueues (processIndividualMessage envBase st0 rowImage).snd = [] ∧
    (processIndividualMessage envBase st0 rowImage).snd =
      [.markProcessedCall "m2"] := by
  refine ⟨rfl, rfl, by decide, by decide⟩

/-- C4 (amended): for a non-group message with no recognized command and a
media reference, the Router enqueues a media job — with payload
`{messageId, chatId, mediaUrl, mediaType, content}` and the media-kind
priority — only when the media kind is audio; for every other media kind
no media job is enqueued. -/
theorem media_enqueue_audio_only (env : Env) (st : SysState) (row : MessageRow)
    (hlook : st.supportChats.lookup row.chat_id = none)
    (hparse : parseCommand (strTrim row.content) = none)
    (hurl : row.media_url.isSome = true) :
    (row.media_type = some "audio" →
      (processIndividualMessage env st row).snd =
        [.enqueueMedia (some "audio") 2
          ⟨row.message_id, row.chat_id, row.media_url, row.media_type, row.content⟩,
         .markProcessedCall row.message_id]) ∧
    (∀ k, row.media_type = some k → k ≠ "audio" →
      mediaEnqueues (processIndividualMessage env st row).snd = []) := by
  constructor
  · intro hmedia
    unfold processIndividualMessage
    simp only [hlook, hparse]
    have hcond : (row.media_url.isSome && row.media_type == some "audio") = true := by
      rw [hurl, hmedia]; rfl
    simp only [hcond, if_true]
    simp [queueMediaProcessing, markMessageProcessed_snd, hmedia, getMediaPriority]
  · intro k hk hkne
    unfold processIndividualMessage
    simp only [hlook, hparse]
    have hcond : (row.media_url.isSome && row.media_type == some "audio") = false := by
      rw [hk]
      have : (some k == some "audio") = false := by
        simp [hkne]
      rw [this, Bool.and_false]
    simp only [hcond, Bool.false_eq_true, if_false]
    by_cases htext : (strTrim row.content != "" && row.message_type == "text") = true
    · simp only [htext, if_true]
      unfold processTextMessage
      cases hai : env.aiText row.content with
      | ok response =>
        by_cases hr : (response != "") = true <;>
          simp [hai, hr, mediaEnqueues, markMessageProcessed_snd, Effect.isEnqueueMedia]
      | error e =>
        simp [hai, mediaEnqueues, markMessageProcessed_snd, Effect.isEnqueueMedia]
    · simp [htext, mediaEnqueues, markMessageProcessed_snd, Effect.isEnqueueMedia]

theorem media_enqueue_audio_only_witness :
    (st0.supportChats.lookup rowAudio.chat_id = none ∧
      parseCommand (strTrim rowAudio.content) = none ∧
      rowAudio.media_url.isSome = true ∧ rowAudio.media_type = some "audio") ∧
    (processIndividualMessage envBase st0 rowAudio).snd =
      [.enqueueMedia (some "audio") 2
        ⟨"m3", "551@s.whatsapp.net", some "http://a", some "audio", ""⟩,
       .markProcessedCall "m3"] :=
  ⟨⟨rfl, by decide, rfl, rfl⟩,
    (media_enqueue_audio_only envBase st0 rowAudio rfl (by decide) rfl).1 rfl⟩

/-- C7 counterexample: a group chat whose 24h window holds three messages
— fewer than `MIN_MESSAGES_FOR_SUMMARY = 5` — still gets a full summary
generation from `generateGroupSummary`: the AI is called, the cache is
written, the `GroupSummary` row is upserted and the generated text (not
the insufficient-data sentinel) is returned. -/
theorem insufficient_guard_counterexample :
    ((stThree.messages.filter (fun m => m.chat_id == "g1@g.us" && m.is_group &&
        inWindow stThree 24 m)).length < MIN_MESSAGES_FOR_SUMMARY) ∧
    (generateGroupSummary envBase stThree "g1@g.us" "24h").snd.snd = .ok (some "SUMMARY") ∧
    Effect.aiSummaryCall ∈ (generateGroupSummary envBase stThree "g1@g.us" "24h").snd.fst ∧
    (generateGroupSummary envBase stThree "g1@g.us" "24h").fst.cache ≠ stThree.cache ∧
    (generateGroupSummary envBase stThree "g1@g.us" "24h").fst.summaries ≠
      stThree.summaries := by
  refine ⟨by decide, rfl, by decide, by decide, by decide⟩

/-- C7 (amended): `generateGroupSummary` short-circuits only on an empty
window: on a cache miss with no messages in the window it returns the
`null` sentinel with no AI call, no cache write and no upsert.  The
`MIN_MESSAGES_FOR_SUMMARY = 5` threshold is enforced only in
`summaryService.requestSummary`, which throws an error (enqueuing
nothing) instead of returning a sentinel. -/
theorem insufficient_data_guard :
    (∀ (env : Env) (st : SysState) (chatId period : String),
      st.cache.lookup ("summary:" ++ chatId ++ ":" ++ period) = none →
      env.selectOk = true →
      st.messages.filter (fun m => m.chat_id == chatId && m.is_group &&
        inWindow st (periodHours period) m) = [] →
      generateGroupSummary env st chatId period = (st, [], .ok none)) ∧
    (∀ (env : Env) (st : SysState) (chatId requesterId : String) (r : MessageRow),
      env.selectOk = true →
      st.messages.find? (fun m => m.chat_id == chatId) = some r →
      r.is_group = true →
      (st.messages.filter (fun m => m.chat_id == chatId && m.is_group &&
        inWindow st 24 m)).length < MIN_MESSAGES_FOR_SUMMARY →
      requestSummary env st chatId requesterId =
        (st, [], .error "Nao ha mensagens suficientes para gerar um resumo")) := by
  constructor
  · intro env st chatId period hcache hsel hfilter
    unfold generateGroupSummary
    simp only [hcache]
    unfold getGroupMessages
    simp only [hsel]
    simp [hfilter, sortByCreatedAsc]
  · intro env st chatId requesterId r hsel hfind hgroup hcount
    unfold requestSummary
    simp only [hsel, hfind]
    simp [hgroup, hcount]

theorem insufficient_data_guard_witness :
    (st0.cache.lookup ("summary:" ++ "g1@g.us" ++ ":" ++ "24h") = none ∧
      envBase.selectOk = true ∧
      st0.messages.filter (fun m => m.chat_id == "g1@g.us" && m.is_group &&
        inWindow st0 (periodHours "24h") m) = []) ∧
    generateGroupSummary envBase st0 "g1@g.us" "24h" = (st0, [], .ok none) :=
  ⟨⟨rfl, rfl, rfl⟩,
    (insufficient_data_guard.1 envBase st0 "g1@g.us" "24h" rfl rfl rfl)⟩

theorem requestSummary_shape (env : Env) (st : SysState) (chatId rq : String) :
    (requestSummary env st chatId rq).fst = st ∧
    sends (requestSummary env st chatId rq).snd.fst = [] := by
  unfold requestSummary
  by_cases h1 : env.selectOk = false
  · simp [h1, sends]
  · simp only [h1, if_false]
    cases hf : st.messages.find? (fun m => m.chat_id == chatId) with
    | none => simp [sends]
    | some r =>
      by_cases h2 : r.is_group = false
      · simp [h2, sends]
      · by_cases h3 : (st.messages.filter (fun m => m.chat_id == chatId && m.is_group &&
            inWindow st 24 m)).length < MIN_MESSAGES_FOR_SUMMARY
        · simp [h2, h3, sends]
        · simp [h2, h3, sends, Effect.isSend]

/-- C2 counterexample: a recognized `/historico` command message arriving
while `ADMIN_CHAT_ID` is not configured produces zero outbound messages
and is never marked processed — the handler returns before its
`try/finally`. -/
theorem commands_one_outbound_counterexample :
    parseCommand (strTrim rowHist.content) = some .historico ∧
    (processIndividualMessage envNoAdmin st0 rowHist).snd = [] ∧
    ¬ ((sends (processIndividualMessage envNoAdmin st0 rowHist).snd).length = 1 ∧
       Effect.markProcessedCall rowHist.message_id ∈
         (processIndividualMessage envNoAdmin st0 rowHist).snd) := by
  refine ⟨by decide, by decide, by decide⟩

/-- C2 (amended): provided `ADMIN_CHAT_ID` is configured — and, for the
knowledge-search commands, the query is non-empty — each one-shot command
handler (`/historico`, `/curso`-family, `/base`, group `/resumo`) sends
exactly one outbound message and marks the triggering message processed,
whether the handler body succeeds or fails. -/
theorem commands_one_outbound (env : Env) (st : SysState) (row : MessageRow)
    (admin : String) (hadmin : env.adminChatId = some admin) :
    ((sends (handleHistoryCommand env st row).snd).length = 1 ∧
      Effect.markProcessedCall row.message_id ∈ (handleHistoryCommand env st row).snd) ∧
    (∀ category query, query ≠ "" →
      (sends (handleKnowledgeCommand env st category query row).snd).length = 1 ∧
      Effect.markProcessedCall row.message_id ∈
        (handleKnowledgeCommand env st category query row).snd) ∧
    ((sends (handleBaseCommand env st row).snd).length = 1 ∧
      Effect.markProcessedCall row.message_id ∈ (handleBaseCommand env st row).snd) ∧
    ((sends (handleSummaryCommand env st row).snd).length = 1 ∧
      Effect.markProcessedCall row.message_id ∈ (handleSummaryCommand env st row).snd) := by
  refine ⟨?_, ?_, ?_, ?_⟩
  · unfold handleHistoryCommand
    simp only [hadmin]
    cases hsum : env.summarize row.chat_id <;>
      simp [hsum, sends, Effect.isSend, markMessageProcessed_snd]
  · intro category query hq
    unfold handleKnowledgeCommand
    simp only [hadmin]
    rw [if_neg hq]
    cases hs : search env.embed env.sqrtQ env.kbFiles st.kb query category with
    | mk kb1 res =>
      cases res <;> simp [sends, Effect.isSend, markMessageProcessed_snd]
  · unfold handleBaseCommand
    simp only [hadmin]
    cases hfs : env.fsAccess ("conhecimento/orientacoes/" ++ row.chat_id ++ ".txt") with
    | found content => simp [sends, Effect.isSend, markMessageProcessed_snd]
    | enoent =>
      by_cases hsel : env.selectOk = false
      · simp [hsel, sends, Effect.isSend, markMessageProcessed_snd]
      · by_cases hrows : (sortByCreatedAsc (st.messages.filter (fun r =>
            r.chat_id == row.chat_id && inWindow st 1 r))).length = 0
        · simp [hsel, hrows, sends, Effect.isSend, markMessageProcessed_snd]
        · simp [hsel, hrows, sends, Effect.isSend, markMessageProcessed_snd]
    | otherError => simp [sends, Effect.isSend, markMessageProcessed_snd]
  · unfold handleSummaryCommand
    simp only [hadmin]
    have hfil : List.filter Effect.isSend (requestSummary env st row.chat_id admin).snd.fst
        = [] := (requestSummary_shape env st row.chat_id admin).2
    constructor
    · cases hreq : (requestSummary env st row.chat_id admin).snd.snd <;>
        (unfold sends
         rw [List.filter_append, List.filter_append, markMessageProcessed_snd]
         simp [Effect.isSend, hfil])
    · cases hreq : (requestSummary env st row.chat_id admin).snd.snd <;>
        simp [markMessageProcessed_snd]

theorem commands_one_outbound_witness :
    envBase.adminChatId = some "admin@s.whatsapp.net" ∧
    ((sends (handleHistoryCommand envBase st0 rowHist).snd).length = 1 ∧
      Effect.markProcessedCall rowHist.message_id ∈
        (handleHistoryCommand envBase st0 rowHist).snd) :=
  ⟨rfl, (commands_one_outbound envBase st0 rowHist "admin@s.whatsapp.net" rfl).1⟩

/-- C10: `markMessageProcessed` and `saveSummary` swallow storage errors
and return normally; consequently `generateGroupSummary` can return and
cache a summary whose `group_summaries` audit row was never persisted, and
a command path completes with its single outbound message even though the
processed flag was never set. -/
theorem storage_errors_swallowed :
    (∀ (env : Env) (st : SysState) (id : String), env.updateProcessedOk = false →
      markMessageProcessed env st id = (st, [.markProcessedCall id])) ∧
    (∀ (env : Env) (st : SysState) (c p s : String) (n : Nat),
      env.insertSummaryOk = false → saveSummary env st c p s n = (st, [])) ∧
    (∀ (env : Env) (st : SysState) (chatId period s : String),
      st.cache.lookup ("summary:" ++ chatId ++ ":" ++ period) = none →
      env.selectOk = true → env.insertSummaryOk = false →
      ∀ _hmsgs : (sortByCreatedAsc (st.messages.filter (fun m =>
          m.chat_id == chatId && m.is_group && inWindow st (periodHours period) m))).take
            500 ≠ [],
      env.aiSummary ((sortByCreatedAsc (st.messages.filter (fun m =>
          m.chat_id == chatId && m.is_group && inWindow st (periodHours period) m))).take
            500) period = .ok s →
      (generateGroupSummary env st chatId period).snd.snd = .ok (some s) ∧
      (generateGroupSummary env st chatId period).fst.summaries = st.summaries ∧
      (generateGroupSummary env st chatId period).fst.cache =
        ("summary:" ++ chatId ++ ":" ++ period, s) :: st.cache) ∧
    (∀ (env : Env) (st : SysState) (row : MessageRow) (admin : String),
      env.adminChatId = some admin → env.updateProcessedOk = false →
      (handleHistoryCommand env st row).fst = st ∧
      (sends (handleHistoryCommand env st row).snd).length = 1) := by
  have hmark : ∀ (env : Env) (st : SysState) (id : String),
      env.updateProcessedOk = false →
      markMessageProcessed env st id = (st, [.markProcessedCall id]) := by
    intro env st id hflag
    unfold markMessageProcessed
    simp [hflag]
  have hsave : ∀ (env : Env) (st : SysState) (c p s : String) (n : Nat),
      env.insertSummaryOk = false → saveSummary env st c p s n = (st, []) := by
    intro env st c p s n hflag
    unfold saveSummary
    simp [hflag]
  refine ⟨hmark, hsave, ?_, ?_⟩
  · intro env st chatId period s hcache hsel hins hmsgs hai
    unfold generateGroupSummary
    simp only [hcache]
    unfold getGroupMessages
    simp only [hsel, Bool.true_eq_false, if_false]
    have hlen : ((sortByCreatedAsc (st.messages.filter (fun m =>
        m.chat_id == chatId && m.is_group && inWindow st (periodHours period) m))).take
          500).length = 0 → False := by
      intro h
      exact hmsgs (List.length_eq_zero.mp h)
    simp only [hai, hsave _ _ _ _ _ _ hins]
    split
    · exact absurd (by assumption) hlen
    · simp [hsave _ _ _ _ _ _ hins]
  · intro env st row admin hadmin hflag
    unfold handleHistoryCommand
    simp only [hadmin]
    rw [hmark env st row.message_id hflag]
    cases hsum : env.summarize row.chat_id <;> simp [sends, Effect.isSend]

theorem storage_errors_swallowed_witness :
    ({ envBase with updateProcessedOk := false } : Env).updateProcessedOk = false ∧
    markMessageProcessed { envBase with updateProcessedOk := false } st0 "m1" =
      (st0, [.markProcessedCall "m1"]) :=
  ⟨rfl, storage_errors_swallowed.1 { envBase with updateProcessedOk := false } st0 "m1" rfl⟩

theorem filterLength_map_mark (l : List MessageRow) (markId id : String) :
    ((l.map (fun r => if r.message_id == markId then { r with processed := true } else r)).filter
      (fun r => r.message_id == id)).length =
    (l.filter (fun r => r.message_id == id)).length := by
  induction l with
  | nil => rfl
  | cons r t ih =>
    simp only [List.map_cons, List.filter_cons]
    cases hr : (r.message_id == markId) with
    | false =>
      simp only [hr, Bool.false_eq_true, if_false]
      cases hid : (r.message_id == id) with
      | false =>
        simp only [hid, Bool.false_eq_true, if_false]
        exact ih
      | true =>
        simp only [hid, if_true, List.length_cons]
        rw [ih]
    | true =>
      simp only [hr, if_true]
      cases hid : (r.message_id == id) with
      | false =>
        simp only [hid, Bool.false_eq_true, if_false]
        exact ih
      | true =>
        simp only [hid, if_true, List.length_cons]
        rw [ih]

theorem msgCount_of_messages_eq {st' st : SysState} (h : st'.messages = st.messages)
    (id : String) : msgCount st' id = msgCount st id := by
  unfold msgCount
  rw [h]

theorem msgCount_mark (env : Env) (st : SysState) (markId id : String) :
    msgCount (markMessageProcessed env st markId).fst id = msgCount st id := by
  unfold markMessageProcessed
  split
  · exact filterLength_map_mark st.messages markId id
  · rfl

theorem saveSummary_messages (env : Env) (st : SysState) (c p s : String) (n : Nat) :
    (saveSummary env st c p s n).fst.messages = st.messages := by
  unfold saveSummary
  split <;> rfl

theorem processTextMessage_fst (env : Env) (st : SysState) (row : MessageRow) :
    (processTextMessage env st row).fst = st := by
  unfold processTextMessage
  split
  · split <;> rfl
  · rfl

theorem generateGroupSummary_messages (env : Env) (st : SysState)
    (chatId period : String) :
    (generateGroupSummary env st chatId period).fst.messages = st.messages := by
  unfold generateGroupSummary
  repeat' split
  all_goals simp only []
  all_goals repeat' split
  all_goals first
    | rfl
    | rw [saveSummary_messages]

theorem handleSummaryRequest_messages (env : Env) (st : SysState) (row : MessageRow) :
    (handleSummaryRequest env st row).fst.messages = st.messages := by
  unfold handleSummaryRequest
  have h1 := generateGroupSummary_messages env st row.chat_id
    (extractSummaryPeriod row.content)
  simp only []
  split <;> (rename_i heq; rw [heq] at h1; exact h1)

theorem msgCount_handleSupportQuery (env : Env) (st : SysState) (row : MessageRow)
    (category id : String) :
    msgCount (handleSupportQuery env st row category).fst id = msgCount st id := by
  unfold handleSupportQuery
  cases hs : search env.embed env.sqrtQ env.kbFiles st.kb row.content category with
  | mk kb1 res =>
    cases res with
    | ok results =>
      by_cases hlen : results.length = 0 <;>
        simp only [hlen, if_true, if_false] <;>
        exact msgCount_mark env _ row.message_id id
    | error e => exact msgCount_mark env _ row.message_id id

theorem msgCount_handleHistory (env : Env) (st : SysState) (row : MessageRow)
    (id : String) :
    msgCount (handleHistoryCommand env st row).fst id = msgCount st id := by
  unfold handleHistoryCommand
  cases env.adminChatId with
  | none => rfl
  | some admin => exact msgCount_mark env st row.message_id id

theorem msgCount_handleKnowledge (env : Env) (st : SysState)
    (category query id : String) (row : MessageRow) :
    msgCount (handleKnowledgeCommand env st category query row).fst id = msgCount st id := by
  unfold handleKnowledgeCommand
  cases env.adminChatId with
  | none => rfl
  | some admin =>
    by_cases hq : query = ""
    · simp [hq]
    · simp only [if_neg hq]
      cases hs : search env.embed env.sqrtQ env.kbFiles st.kb query category with
      | mk kb1 res =>
        cases res with
        | ok results => exact msgCount_mark env _ row.message_id id
        | error e => exact msgCount_mark env _ row.message_id id

theorem msgCount_handleBase (env : Env) (st : SysState) (row : MessageRow)
    (id : String) :
    msgCount (handleBaseCommand env st row).fst id = msgCount st id := by
  unfold handleBaseCommand
  cases env.adminChatId with
  | none => rfl
  | some admin => exact msgCount_mark env st row.message_id id

theorem msgCount_handleSummaryCommand (env : Env) (st : SysState) (row : MessageRow)
    (id : String) :
    msgCount (handleSummaryCommand env st row).fst id = msgCount st id := by
  unfold handleSummaryCommand
  cases env.adminChatId with
  | none => rfl
  | some admin =>
    rw [msgCount_mark]
    exact msgCount_of_messages_eq
      (congrArg SysState.messages (requestSummary_shape env st row.chat_id admin).1) id

theorem msgCount_processIndividual (env : Env) (st : SysState) (row : MessageRow)
    (id : String) :
    msgCount (processIndividualMessage env st row).fst id = msgCount st id := by
  unfold processIndividualMessage
  simp only []
  cases hl : List.lookup row.chat_id st.supportChats with
  | some category =>
    simp only []
    split
    · rfl
    · exact msgCount_handleSupportQuery env st row category id
  | none =>
    simp only []
    cases hc : parseCommand (strTrim row.content) with
    | some cmd =>
      cases cmd with
      | apoioaluno => rfl
      | historico => exact msgCount_handleHistory env st row id
      | knowledge category query => exact msgCount_handleKnowledge env st category query id row
      | base => exact msgCount_handleBase env st row id
    | none =>
      by_cases h1 : (row.media_url.isSome && row.media_type == some "audio") = true
      · simp only [h1, if_true]
        exact msgCount_mark env _ row.message_id id
      · simp only [h1, if_false]
        by_cases h2 : (strTrim row.content != "" && row.message_type == "text") = true
        · simp only [h2, if_true]
          rw [msgCount_mark]
          exact msgCount_of_messages_eq
            (congrArg SysState.messages (processTextMessage_fst env st row)) id
        · simp only [h2, if_false]
          exact msgCount_mark env _ row.message_id id

theorem msgCount_processGroup (env : Env) (st : SysState) (row : MessageRow)
    (id : String) :
    msgCount (processGroupMessage env st row).fst id = msgCount st id := by
  unfold processGroupMessage
  by_cases h1 : (row.content != "" && strTrim row.content == "/resumo") = true
  · simp only [h1, if_true]
    exact msgCount_handleSummaryCommand env st row id
  · simp only [h1, if_false]
    by_cases h2 : (row.content != "" && isSummaryRequest row.content) = true
    · simp only [h2, if_true]
      exact msgCount_of_messages_eq
        (handleSummaryRequest_messages env st row) id
    · simp only [h2, if_false]
      exact msgCount_mark env _ row.message_id id

theorem filter_eq_nil_of_msgCount_zero (st : SysState) (id : String)
    (h : msgCount st id = 0) :
    st.messages.filter (fun r => r.message_id == id) = [] := by
  unfold msgCount at h
  exact List.length_eq_zero.mp h

theorem count0_find?_none (st : SysState) (id : String) (h : msgCount st id = 0) :
    st.messages.find? (fun r => r.message_id == id) = none := by
  rw [List.find?_eq_none]
  intro x hx hpx
  have hmem : x ∈ st.messages.filter (fun r => r.message_id == id) :=
    List.mem_filter.mpr ⟨hx, hpx⟩
  rw [filter_eq_nil_of_msgCount_zero st id h] at hmem
  exact absurd hmem (List.not_mem_nil x)

theorem count0_any_false (st : SysState) (id : String) (h : msgCount st id = 0) :
    st.messages.any (fun r => r.message_id == id) = false := by
  rw [List.any_eq_false]
  intro x hx hpx
  have hmem : x ∈ st.messages.filter (fun r => r.message_id == id) :=
    List.mem_filter.mpr ⟨hx, hpx⟩
  rw [filter_eq_nil_of_msgCount_zero st id h] at hmem
  exact absurd hmem (List.not_mem_nil x)

theorem countPos_find?_isSome (st : SysState) (id : String) (h : msgCount st id ≠ 0) :
    (st.messages.find? (fun r => r.message_id == id)).isSome = true := by
  by_contra hns
  have hnone : st.messages.find? (fun r => r.message_id == id) = none :=
    Option.not_isSome_iff_eq_none.mp (by simpa using hns)
  apply h
  unfold msgCount
  rw [List.length_eq_zero, List.filter_eq_nil_iff]
  intro a ha
  exact List.find?_eq_none.mp hnone a ha

theorem msgCount_append (st : SysState) (r : MessageRow) (id : String) :
    msgCount { st with messages := st.messages ++ [r] } id =
      msgCount st id + (if r.message_id == id then 1 else 0) := by
  unfold msgCount
  simp only [List.filter_append, List.length_append]
  congr 1
  simp only [List.filter]
  split <;> simp_all

theorem processIncomingMessage_dup (env : Env) (st : SysState) (m : RawMessage)
    (inst : String) (hsel : env.selectOk = true)
    (hfound : (st.messages.find? (fun r =>
      r.message_id == (extractMessageData m inst).messageId)).isSome = true) :
    processIncomingMessage env st m inst = (st, [], .ok .skipped) := by
  obtain ⟨r, hr⟩ := Option.isSome_iff_exists.mp hfound
  unfold processIncomingMessage getMessageById
  simp [hsel, hr]

theorem processIncomingMessage_fresh (env : Env) (st : SysState) (m : RawMessage)
    (inst : String) (hsel : env.selectOk = true) (hins : env.insertMessageOk = true)
    (h0 : msgCount st (extractMessageData m inst).messageId = 0) :
    (processIncomingMessage env st m inst).snd.snd = .ok .created ∧
    msgCount (processIncomingMessage env st m inst).fst
      (extractMessageData m inst).messageId = 1 := by
  have hfind := count0_find?_none st _ h0
  have hany := count0_any_false st _ h0
  unfold processIncomingMessage getMessageById saveMessage
  simp only [hsel, if_true, hfind, hins, hany, Bool.true_eq_false, if_false,
    Bool.false_eq_true]
  constructor
  · trivial
  · by_cases hg : strContains (extractMessageData m inst).chatId "@g.us" = true
    · simp only [hg, if_true]
      rw [msgCount_processGroup, msgCount_append]
      simp [h0]
    · simp only [Bool.not_eq_true] at hg
      simp only [hg, Bool.false_eq_true, if_false]
      rw [msgCount_processIndividual, msgCount_append]
      simp [h0]

/-- C1: idempotent ingestion.  When the extracted message id is already in
the store, `processIncomingMessage` changes no state, emits no effect and
reports `skipped`; and ingesting a fresh message twice stores exactly one
row — the first call reports `created`, the second `skipped`. -/
theorem ingest_idempotent :
    (∀ (env : Env) (st : SysState) (m : RawMessage) (inst : String),
      env.selectOk = true →
      (st.messages.find? (fun r =>
        r.message_id == (extractMessageData m inst).messageId)).isSome = true →
      processIncomingMessage env st m inst = (st, [], .ok .skipped)) ∧
    (∀ (env : Env) (st : SysState) (m : RawMessage) (inst : String),
      env.selectOk = true → env.insertMessageOk = true →
      msgCount st (extractMessageData m inst).messageId = 0 →
      (processIncomingMessage env st m inst).snd.snd = .ok .created ∧
      msgCount (processIncomingMessage env st m inst).fst
        (extractMessageData m inst).messageId = 1 ∧
      (processIncomingMessage env (processIncomingMessage env st m inst).fst m inst).snd.snd
        = .ok .skipped ∧
      msgCount
        (processIncomingMessage env (processIncomingMessage env st m inst).fst m inst).fst
        (extractMessageData m inst).messageId = 1) := by
  constructor
  · exact fun env st m inst hsel hfound => processIncomingMessage_dup env st m inst hsel hfound
  · intro env st m inst hsel hins h0
    obtain ⟨hcreated, hcount⟩ := processIncomingMessage_fresh env st m inst hsel hins h0
    have hfound2 : ((processIncomingMessage env st m inst).fst.messages.find? (fun r =>
        r.message_id == (extractMessageData m inst).messageId)).isSome = true :=
      countPos_find?_isSome _ _ (by rw [hcount]; exact one_ne_zero)
    have hdup := processIncomingMessage_dup env (processIncomingMessage env st m inst).fst
      m inst hsel hfound2
    refine ⟨hcreated, hcount, ?_, ?_⟩
    · rw [hdup]
    · rw [hdup]
      exact hcount

theorem ingest_idempotent_witness :
    (envBase.selectOk = true ∧ envBase.insertMessageOk = true ∧
      msgCount st0 (extractMessageData rawText "inst").messageId = 0) ∧
    ((processIncomingMessage envBase st0 rawText "inst").snd.snd = .ok .created ∧
      msgCount (processIncomingMessage envBase st0 rawText "inst").fst
        (extractMessageData rawText "inst").messageId = 1 ∧
      (processIncomingMessage envBase
        (processIncomingMessage envBase st0 rawText "inst").fst rawText "inst").snd.snd
        = .ok .skipped ∧
      msgCount
        (processIncomingMessage envBase
          (processIncomingMessage envBase st0 rawText "inst").fst rawText "inst").fst
        (extractMessageData rawText "inst").messageId = 1) :=
  ⟨⟨rfl, rfl, rfl⟩, ingest_idempotent.2 envBase st0 rawText "inst" rfl rfl rfl⟩

theorem length_insertDesc [LinearOrder α] (x : ScoredVector α)
    (l : List (ScoredVector α)) :
    (insertDesc x l).length = l.length + 1 := by
  induction l with
  | nil => rfl
  | cons y ys ih =>
    unfold insertDesc
    split <;> simp [ih]

theorem length_sortBySim [LinearOrder α] (l : List (ScoredVector α)) :
    (sortBySim l).length = l.length := by
  induction l with
  | nil => rfl
  | cons x xs ih =>
    show (insertDesc x (sortBySim xs)).length = _
    rw [length_insertDesc, ih, List.length_cons]

theorem mem_insertDesc [LinearOrder α] (x a : ScoredVector α)
    (l : List (ScoredVector α)) :
    a ∈ insertDesc x l ↔ a = x ∨ a ∈ l := by
  induction l with
  | nil => simp [insertDesc]
  | cons y ys ih =>
    unfold insertDesc
    split
    · simp
    · simp only [List.mem_cons, ih]
      tauto

theorem pairwise_insertDesc [LinearOrder α] (x : ScoredVector α)
    (l : List (ScoredVector α))
    (hl : l.Pairwise (fun a b => b.similarity ≤ a.similarity)) :
    (insertDesc x l).Pairwise (fun a b => b.similarity ≤ a.similarity) := by
  induction l with
  | nil => simp [insertDesc]
  | cons y ys ih =>
    rcases List.pairwise_cons.mp hl with ⟨hy, hys⟩
    unfold insertDesc
    split
    · rename_i hle
      refine List.pairwise_cons.mpr ⟨?_, hl⟩
      intro b hb
      rcases List.mem_cons.mp hb with rfl | hmem
      · exact hle
      · exact le_trans (hy b hmem) hle
    · rename_i hgt
      refine List.pairwise_cons.mpr ⟨?_, ih hys⟩
      intro b hb
      rcases (mem_insertDesc x b ys).mp hb with rfl | hmem
      · exact le_of_lt (lt_of_not_le hgt)
      · exact hy b hmem

theorem pairwise_sortBySim [LinearOrder α] (l : List (ScoredVector α)) :
    (sortBySim l).Pairwise (fun a b => b.similarity ≤ a.similarity) := by
  induction l with
  | nil => simp [sortBySim]
  | cons x xs ih => exact pairwise_insertDesc x (sortBySim xs) ih

theorem filter_insertDesc [LinearOrder α] (x : ScoredVector α)
    (l : List (ScoredVector α)) (s : α) :
    (insertDesc x l).filter (fun c => decide (c.similarity = s)) =
      if x.similarity = s then
        x :: l.filter (fun c => decide (c.similarity = s))
      else l.filter (fun c => decide (c.similarity = s)) := by
  induction l with
  | nil =>
    unfold insertDesc
    by_cases hx : x.similarity = s <;> simp [hx]
  | cons y ys ih =>
    unfold insertDesc
    split
    · rename_i hle
      by_cases hx : x.similarity = s <;> simp [List.filter_cons, hx]
    · rename_i hgt
      have hxy : x.similarity < y.similarity := lt_of_not_le hgt
      by_cases hx : x.similarity = s
      · have hy : ¬ y.similarity = s := by
          intro hys
          rw [hx] at hxy
          rw [hys] at hxy
          exact lt_irrefl s hxy
        simp [List.filter_cons, hx, hy, ih]
      · by_cases hy : y.similarity = s <;> simp [List.filter_cons, hx, hy, ih]

theorem filter_sortBySim [LinearOrder α] (l : List (ScoredVector α)) (s : α) :
    (sortBySim l).filter (fun c => decide (c.similarity = s)) =
      l.filter (fun c => decide (c.similarity = s)) := by
  induction l with
  | nil => rfl
  | cons x xs ih =>
    show (insertDesc x (sortBySim xs)).filter _ = _
    rw [filter_insertDesc]
    by_cases hx : x.similarity = s
    · rw [if_pos hx, ih]
      simp [List.filter_cons, hx]
    · rw [if_neg hx, ih]
      simp [List.filter_cons, hx]

theorem filter_take_prefix (l : List β) (p : β → Bool) (k : Nat) :
    (l.take k).filter p <+: l.filter p :=
  ⟨(l.drop k).filter p, by rw [← List.filter_append, List.take_append_drop]⟩

/-- C5: knowledge retrieval ranking.  For every non-empty loaded corpus and
successful embedding, `search` returns `min(3, corpus size)` chunks in
descending cosine-similarity order, ties kept in corpus insertion order
(each equal-similarity class of the output is a prefix of that class in
the scored corpus); and on the §8 example corpus with query embedding
`[1, 0]` it returns "A" first with similarity 1.0 and "B" second with
similarity 0.0. -/
theorem similarity_ranking :
    (∀ (sqrt : ℝ → ℝ) (embed : String → Except String (List ℝ)) (files : KBFiles ℝ)
      (st : KBState ℝ) (q category : String) (qe : List ℝ),
      embed q = .ok qe →
      (getKnowledgeBase files st category).snd ≠ [] →
      ∃ out, (search embed sqrt files st q category).snd = .ok out ∧
        out.length = min TOP_K (getKnowledgeBase files st category).snd.length ∧
        out.Pairwise (fun a b => b.similarity ≤ a.similarity) ∧
        ∀ s : ℝ, out.filter (fun c => decide (c.similarity = s)) <+:
          ((getKnowledgeBase files st category).snd.map (fun v =>
            ⟨v.content, v.source, v.embedding,
              cosineSimilarity sqrt qe v.embedding⟩)).filter
            (fun c => decide (c.similarity = s))) ∧
    search exampleEmbed Real.sqrt exampleFiles [] "q" "curso" =
      ([("curso", exampleCorpus)], .ok
        [⟨"A", "srcA", [1, 0], 1⟩, ⟨"B", "srcB", [0, 1], 0⟩]) := by
  constructor
  · intro sqrt embed files st q category qe hq hne
    have hlen : ¬ (getKnowledgeBase files st category).snd.length = 0 := by
      simpa [List.length_eq_zero] using hne
    have hsearch : (search embed sqrt files st q category).snd =
        .ok ((sortBySim ((getKnowledgeBase files st category).snd.map (fun v =>
          ⟨v.content, v.source, v.embedding,
            cosineSimilarity sqrt qe v.embedding⟩))).take TOP_K) := by
      unfold search
      simp only [hq, if_neg hlen]
    refine ⟨_, hsearch, ?_, ?_, ?_⟩
    · rw [List.length_take, length_sortBySim, List.length_map]
    · exact List.Pairwise.sublist (List.take_sublist _ _) (pairwise_sortBySim _)
    · intro s
      have h1 := filter_take_prefix
        (sortBySim ((getKnowledgeBase files st category).snd.map (fun v =>
          ⟨v.content, v.source, v.embedding, cosineSimilarity sqrt qe v.embedding⟩)))
        (fun c => decide (c.similarity = s)) TOP_K
      rwa [filter_sortBySim] at h1
  · have hs1 : cosineSimilarity Real.sqrt [(1:ℝ), 0] [(1:ℝ), 0] = 1 := by
      simp [cosineSimilarity, cosineAccum]
    have hs2 : cosineSimilarity Real.sqrt [(1:ℝ), 0] [(0:ℝ), 1] = 0 := by
      simp [cosineSimilarity, cosineAccum]
    unfold search
    have hload : getKnowledgeBase exampleFiles ([] : KBState ℝ) "curso" =
        ([("curso", exampleCorpus)], exampleCorpus) := by
      simp [getKnowledgeBase, exampleFiles, List.lookup]
    rw [hload]
    simp only [exampleCorpus, exampleEmbed, List.length_cons, List.map, hs1, hs2]
    norm_num [sortBySim, insertDesc, TOP_K]

theorem similarity_ranking_witness :
    (exampleEmbed "q" = .ok [1, 0] ∧
      (getKnowledgeBase exampleFiles ([] : KBState ℝ) "curso").snd ≠ []) ∧
    (∃ out, (search exampleEmbed Real.sqrt exampleFiles [] "q" "curso").snd = .ok out ∧
      out.length = min TOP_K (getKnowledgeBase exampleFiles ([] : KBState ℝ) "curso").snd.length ∧
      out.Pairwise (fun a b => b.similarity ≤ a.similarity) ∧
      ∀ s : ℝ, out.filter (fun c => decide (c.similarity = s)) <+:
        ((getKnowledgeBase exampleFiles ([] : KBState ℝ) "curso").snd.map (fun v =>
          ⟨v.content, v.source, v.embedding,
            cosineSimilarity Real.sqrt [1, 0] v.embedding⟩)).filter
          (fun c => decide (c.similarity = s))) :=
  ⟨⟨rfl, by simp [getKnowledgeBase, exampleFiles, exampleCorpus, List.lookup]⟩,
    similarity_ranking.1 Real.sqrt exampleEmbed exampleFiles [] "q" "curso" [1, 0] rfl
      (by simp [getKnowledgeBase, exampleFiles, exampleCorpus, List.lookup])⟩

end WebWhats
